import Mathlib

/-!
Verification of the node-graph workflow engine of the research_assistant
repository: a shallow embedding of the hello_world pipeline, the Gemini
chat node, and the document-ingestion pipeline (file-type router, Docling
processor, ChromaDB ingestion) together with the timing/history
instrumentation wrapper, and proofs of the spec-level claims about them.

Conventions of the embedding:
 - Python strings are Lean `String`; Python dicts with string keys/values
   are association lists `List (String × String)` in insertion order.
 - Python `None`-able attributes are `Option`; Python truthiness of a
   string/list/dict/None is emptiness/`none` and is spelled out at each
   use site.
 - Wall-clock durations are opaque inputs: each run function receives the
   measured duration (a `Rat`) and/or its formatted text, since `time.time()`
   is nondeterministic; everything else is translated from the source.
 - Exceptions are `Except String`; a raised exception carries `str(e)`.
-/

/-- Whether `pat` occurs as a contiguous sublist of `s` (structural
recursion so that the kernel can evaluate it). -/
def containsSub : List Char → List Char → Bool
  | [], pat => pat.isEmpty
  | s@(_ :: rest), pat => pat.isPrefixOf s || containsSub rest pat

/-- Python `pat in s` on strings. -/
def pyInStr (pat s : String) : Bool :=
  containsSub s.toList pat.toList

/-- Python `str.lower` (ASCII case folding, as in the extensions and
prompts this code lowercases). -/
def strToLower (s : String) : String :=
  String.mk (s.toList.map Char.toLower)

/-- Characters of the final path component, as `os.path.basename` for
forward-slash paths: drop everything up to the last `'/'`. -/
def lastComponentAux : List Char → List Char → List Char
  | [], acc => acc
  | c :: rest, acc => lastComponentAux rest (if c = '/' then [] else acc ++ [c])

/-- Final path component, as `os.path.basename` / `pathlib.PurePath.name`
for forward-slash paths. -/
def lastComponent (p : String) : String :=
  String.mk (lastComponentAux p.toList [])

/-- Index of the last `'.'` in the character list that has some non-dot
character before it (the dot starting the `os.path.splitext` extension);
`none` when the name has no extension (e.g. leading dots only). -/
def splitExtIdx : List Char → Nat → Bool → Option Nat → Option Nat
  | [], _, _, best => best
  | c :: rest, i, seen, best =>
    if c = '.' then
      splitExtIdx rest (i + 1) seen (if seen then some i else best)
    else
      splitExtIdx rest (i + 1) true best

/-- `os.path.splitext(p)[1]`: the extension of the final component,
beginning at its last dot, where leading dots of the component are part of
the root. -/
def pathExt (p : String) : String :=
  let b := lastComponent p
  match splitExtIdx b.toList 0 false none with
  | none => ""
  | some i => String.mk (b.toList.drop i)

/-- Index of the last occurrence of `c`, as Python `str.rfind`. -/
def rfindChar (cs : List Char) (c : Char) : Option Nat :=
  (List.range cs.length).foldl
    (fun acc i => if cs.getD i ' ' = c then some i else acc) none

/-- `pathlib.PurePath(p).stem`: the final component without its suffix;
the suffix starts at the last dot `i` of the name with `0 < i < len - 1`. -/
def pathStem (p : String) : String :=
  let name := lastComponent p
  let cs := name.toList
  match rfindChar cs '.' with
  | some i => if 0 < i ∧ i < cs.length - 1 then String.mk (cs.take i) else name
  | none => name

/-- Python `dict.update`: keys already present keep their position and take
the overlay value; new overlay keys are appended in order. -/
def dictUpdate (base overlay : List (String × String)) : List (String × String) :=
  (base.map fun kv =>
    match overlay.find? (fun kv2 => kv2.1 = kv.1) with
    | some kv2 => (kv.1, kv2.2)
    | none => kv)
  ++ overlay.filter fun kv2 => ¬ (base.any fun kv => kv.1 = kv2.1)

/-- The apostrophe character, built by code point to keep source prompt
strings faithful. -/
def aposChar : String := String.singleton (Char.ofNat 39)

/-- Decidable equality for `Except`, so that run results can be settled by
`decide`. -/
instance {ε α : Type} [DecidableEq ε] [DecidableEq α] : DecidableEq (Except ε α) := fun a b =>
  match a, b with
  | .ok a, .ok b => decidable_of_iff (a = b) (by simp)
  | .ok _, .error _ => isFalse (fun h => by cases h)
  | .error _, .ok _ => isFalse (fun h => by cases h)
  | .error e, .error f => decidable_of_iff (e = f) (by simp)

/-- A node step yields the next node, a terminal `End(payload)`, or Python
`None` (a node that forgot to return). -/
inductive StepResult (ν ω : Type) where
  | nextNode (n : ν)
  | endMarker (payload : ω)
  | noneResult
deriving Repr, DecidableEq

/-- One entry of the engine-level execution trace (`result.history`):
a visited node or the terminal marker. -/
inductive TraceEntry where
  | nodeStep (name : String)
  | endStep
deriving Repr, DecidableEq

/-- Modelled from the spec: the execution engine (`pydantic_graph.Graph.run`,
an external library, not under src) per section 4.3 — repeatedly invoke the
current node step, follow returned nodes, stop at the terminal marker; the
trace accumulates one entry per step plus the terminal entry; fuel bounds
the loop (the engine itself enforces no bound). A `noneResult` step gives
no normal result. -/
def runEngine {σ ν ω : Type} (step : σ → ν → σ × StepResult ν ω) (nodeName : ν → String) :
    Nat → σ → ν → List TraceEntry → Option (ω × σ × List TraceEntry)
  | 0, _, _, _ => none
  | Nat.succ fuel, st, n, trace =>
    match step st n with
    | (st2, .nextNode n2) => runEngine step nodeName fuel st2 n2 (trace ++ [.nodeStep (nodeName n)])
    | (st2, .endMarker out) => some (out, st2, trace ++ [.nodeStep (nodeName n), .endStep])
    | (_, .noneResult) => none

/- ## hello_world (src/hello_world/{state,dependencies,nodes,graph}.py) -/

/-- `hello_world.state.MyState`. -/
structure MyState where
  hello_text : String := ""
  world_text : String := ""
  combined_text : String := ""
deriving Repr, DecidableEq

/-- `hello_world.dependencies.MockLLMClient.generate_text`. -/
def mockGenerateText (prompt : String) : String :=
  if pyInStr "hello" (strToLower prompt) then "Hello"
  else if pyInStr "world" (strToLower prompt) then "World"
  else "I" ++ aposChar ++ "m a mock LLM client!"

/-- The prompt `HelloNode.run` sends to the LLM client. -/
def helloPrompt : String :=
  "Generate a greeting word like " ++ aposChar ++ "Hello" ++ aposChar

/-- The prompt `WorldNode.run` sends to the LLM client. -/
def worldPrompt : String :=
  "Generate a noun like " ++ aposChar ++ "World" ++ aposChar

/-- The hello_world node variants. -/
inductive HWNode where
  | hello
  | world
  | combine
  | print
deriving Repr, DecidableEq

/-- Python class name of each hello_world node. -/
def hwNodeName : HWNode → String
  | .hello => "HelloNode"
  | .world => "WorldNode"
  | .combine => "CombineNode"
  | .print => "PrintNode"

/-- The step of each hello_world node (`hello_world.nodes`), with the
default `MockLLMClient` dependency. The hello_world
`_measure_execution_time` decorator only prints and returns the result
unchanged, so it is the identity on state and step result. `asyncio.sleep`
delays do not affect state. -/
def hwStep (st : MyState) : HWNode → MyState × StepResult HWNode String
  | .hello =>
    let st := if st.hello_text = "" then
        { st with hello_text := mockGenerateText helloPrompt } else st
    (st, .nextNode .world)
  | .world =>
    let st := if st.world_text = "" then
        { st with world_text := mockGenerateText worldPrompt } else st
    (st, .nextNode .combine)
  | .combine =>
    ({ st with combined_text := st.hello_text ++ " " ++ st.world_text ++ "!" },
     .nextNode .print)
  | .print =>
    (st, .endMarker st.combined_text)

/-- `hello_world.graph.run_graph` with default state and dependencies:
run the engine from `HelloNode` (fuel 10 covers the four-node chain). -/
def helloWorldRun (st : MyState) : Option (String × MyState × List TraceEntry) :=
  runEngine hwStep hwNodeName 10 st .hello []

/- ## Instrumentation wrapper
   (`research_agent.core.gemini.nodes._measure_execution_time`) -/

/-- The NodeError message raised when a decorated `run` returns a non-`End`
value (`gemini/nodes.py:81`). -/
def nodeErrorMsg (nodeName : String) : String :=
  "Node " ++ nodeName ++ " did not return an End object"

/-- `_measure_execution_time` from `research_agent/core/gemini/nodes.py`,
applied to the result of the inner `run` and the post-run
`node_execution_history` (every decorated state has that attribute, so the
`hasattr` guard always passes). `func.__name__` is `"run"` for every
decorated node step, so the `End`-check applies to the result of each of
them: a non-`End` result (a successor node or `None`) raises `NodeError`
inside the `try`, whose handler appends the error entry and re-raises; an
inner exception likewise gets an error entry and is re-raised; an `End`
result gets the success entry `"<name>: <output> (took <t>s)"`. -/
def measure_execution_time {ν ω : Type} (nodeName outputText tookStr : String)
    (inner : Except String (StepResult ν ω)) (hist : List String) :
    Except String (StepResult ν ω) × List String :=
  match inner with
  | .error e => (.error e, hist ++ [nodeName ++ ": Error - " ++ e])
  | .ok (.endMarker p) =>
    (.ok (.endMarker p),
     hist ++ [nodeName ++ ": " ++ outputText ++ " (took " ++ tookStr ++ "s)"])
  | .ok r =>
    let _ := r
    (.error (nodeErrorMsg nodeName),
     hist ++ [nodeName ++ ": Error - " ++ nodeErrorMsg nodeName])

/- ## Gemini chat (src/research_agent/core/gemini/{dependencies,nodes}.py) -/

/-- Modelled from the spec: `GeminiState`
(`research_agent/core/gemini/state.py` is absent from src; only its
importers and tests are present). Per spec section 3 and its uses in
`gemini/graph.py`, `gemini/nodes.py` and `tests/research_agent/test_graph.py`
it carries the prompt, the response, the generation time, the total time
and the execution history. -/
structure GeminiState where
  user_prompt : String := ""
  ai_response : String := ""
  ai_generation_time : Rat := 0
  total_time : Rat := 0
  node_execution_history : List String := []
deriving Repr, DecidableEq

/-- `GeminiLLMClient.generate_text` (`gemini/dependencies.py:91-109`): the
underlying agent call either yields a response (its `data`) or raises; a
raise is caught and folded into the returned text
`"Error generating response: <e>"`. The agent itself is the external
pydantic-ai collaborator, so its outcome is a parameter. -/
def gemini_generate_text (agentResult : Except String String) : String :=
  match agentResult with
  | .ok data => data
  | .error e => "Error generating response: " ++ e

/-- `GeminiAgentNode.run` body (`gemini/nodes.py:148-165`): generate a
response when `user_prompt` is truthy, store it, store the measured
generation time and the total time, and return `End(ai_response)`. -/
def geminiAgentRunBody (agentResult : Except String String) (genTime : Rat)
    (st : GeminiState) : GeminiState × StepResult Unit String :=
  let resp := if st.user_prompt ≠ "" then gemini_generate_text agentResult
              else "No prompt provided. Please enter a question or prompt."
  let st := { st with
    ai_response := resp
    ai_generation_time := genTime
    total_time := genTime }
  (st, .endMarker resp)

/-- The wrapper output text of `GeminiAgentNode`: `_log_prefix`
`"AI Response"` plus `_get_output_text` (the post-run `ai_response`). -/
def geminiOutputText (st : GeminiState) : String :=
  "AI Response: " ++ st.ai_response

/-- Modelled from the spec: the engine run of the single-node Gemini graph
(`run_gemini_agent_graph` drives `pydantic_graph.Graph.run`, external to
src) — one decorated step; an `End` result terminates with its payload and
the two-entry trace, an exception aborts the run (spec section 4.3). -/
def geminiGraphRun (agentResult : Except String String) (genTime : Rat)
    (tookStr : String) (st : GeminiState) :
    Except String (String × GeminiState × List TraceEntry) :=
  let (st2, r) := geminiAgentRunBody agentResult genTime st
  let (res, hist) := measure_execution_time "GeminiAgentNode" (geminiOutputText st2)
      tookStr (.ok r) st2.node_execution_history
  let st3 := { st2 with node_execution_history := hist }
  match res with
  | .error e => .error e
  | .ok (.endMarker p) =>
    .ok (p, st3, [TraceEntry.nodeStep "GeminiAgentNode", TraceEntry.endStep])
  | .ok _ => .error (nodeErrorMsg "GeminiAgentNode")

/- ## Document pipeline
   (src/research_agent/core/document/{state,nodes,graph}.py) -/

/-- A Python string-keyed dict in insertion order (document metadata,
ingestion result dicts). -/
abbrev PyDict : Type := List (String × String)

/-- `research_agent.core.document.state.DocumentState`. The dataclass
declares `documents`, `document_ids`, `metadata`, `chroma_collection_name`,
`embedding_results`, `ingestion_results`, `node_execution_history` and
`total_time` — and no `file_paths` field. `file_paths` here models the
*dynamic* attribute of the same name that router/docling code probes with
`hasattr`: it is `none` (absent) on every instance built by the declared
constructor, `some` only when set from outside. -/
structure DocumentState where
  documents : List String := []
  document_ids : Option (List String) := none
  metadata : Option (List PyDict) := none
  chroma_collection_name : String := "default_collection"
  embedding_results : Option PyDict := none
  ingestion_results : Option PyDict := none
  node_execution_history : List String := []
  total_time : Rat := 0
  file_paths : Option (List String) := none
deriving Repr, DecidableEq

/-- The field names the `DocumentState` dataclass constructor accepts
(`document/state.py:28-35`). -/
def documentStateFieldNames : List String :=
  ["documents", "document_ids", "metadata", "chroma_collection_name",
   "embedding_results", "ingestion_results", "node_execution_history",
   "total_time"]

/-- The document-pipeline node variants a step can return. -/
inductive DocNode where
  | docling
  | ingestion
deriving Repr, DecidableEq

/-- `FileTypeRouterNode.DOCLING_SUPPORTED_EXTENSIONS`. -/
def DOCLING_SUPPORTED_EXTENSIONS : List String :=
  [".pdf", ".docx", ".pptx", ".html", ".htm", ".png", ".jpg", ".jpeg",
   ".xlsx", ".csv", ".md", ".xml", ".json"]

/-- `FileTypeRouterNode.TEXT_FILE_EXTENSIONS`. -/
def TEXT_FILE_EXTENSIONS : List String := [".txt"]

/-- `FileTypeRouterNode.SKIP_EXTENSIONS`. -/
def SKIP_EXTENSIONS : List String :=
  [".exe", ".dll", ".zip", ".rar", ".7z", ".tar", ".gz", ".bin"]

/-- Outcome of opening a path in text mode with utf-8: readable content,
or a raised error (missing file / `UnicodeDecodeError`). -/
inductive FileRead where
  | text (content : String)
  | failure
deriving Repr, DecidableEq

/-- A file system: what reading each path yields. -/
def FS : Type := String → FileRead

/-- The router's binary sniff on an unknown extension
(`document/nodes.py:409-418`): a read failure counts as binary, as does a
NUL byte in the first 1024 characters. -/
def isBinarySniff (r : FileRead) : Bool :=
  match r with
  | .failure => true
  | .text content => (content.toList.take 1024).contains (Char.ofNat 0)

/-- The direct append the router performs for an item it processes itself
(`document/nodes.py:382-400` and `428-447`): append the content to
`documents`, the metadata dict to `metadata` (created as `[]` when absent
or `None`), and the id `doc_<stem>_<n>` to `document_ids`, where `<n>` is
`len(document_ids)` at assignment time. -/
def directAppend (st : DocumentState) (path content : String) (meta : PyDict) :
    DocumentState :=
  let ids0 := st.document_ids.getD []
  let doc_id := "doc_" ++ pathStem path ++ "_" ++ toString ids0.length
  { st with
    documents := st.documents ++ [content]
    metadata := some ((st.metadata.getD []) ++ [meta])
    document_ids := some (ids0 ++ [doc_id]) }

/-- Metadata dict for a directly-processed `.txt` file
(`document/nodes.py:390-394`). -/
def textFileMeta (path : String) : PyDict :=
  [("source", path), ("document_type", "text"), ("processed_with", "direct")]

/-- Metadata dict for an unknown-extension file processed as text
(`document/nodes.py:436-441`). -/
def unknownFileMeta (path : String) : PyDict :=
  [("source", path), ("document_type", "unknown"), ("processed_with", "direct"),
   ("note", "Unsupported file type processed as text")]

/-- Accumulator of the router's per-item loop: the mutated state and the
four classification lists. -/
structure RouterAcc where
  st : DocumentState
  docling_files : List String := []
  text_files : List String := []
  unsupported_files : List String := []
  skipped_files : List String := []
deriving Repr

/-- One iteration of the router's classification loop
(`document/nodes.py:364-451`): skip-extensions are dropped; Docling
extensions are collected; `.txt` files are counted and, when readable,
appended directly (a read failure only logs); any other extension is
counted as unsupported and appended directly unless the binary sniff or
the read fails. -/
def routerProcessItem (fs : FS) (acc : RouterAcc) (path : String) : RouterAcc :=
  let ext := strToLower (pathExt path)
  if SKIP_EXTENSIONS.contains ext then
    { acc with skipped_files := acc.skipped_files ++ [path] }
  else if DOCLING_SUPPORTED_EXTENSIONS.contains ext then
    { acc with docling_files := acc.docling_files ++ [path] }
  else if TEXT_FILE_EXTENSIONS.contains ext then
    let acc := { acc with text_files := acc.text_files ++ [path] }
    match fs path with
    | .failure => acc
    | .text content => { acc with st := directAppend acc.st path content (textFileMeta path) }
  else
    let acc := { acc with unsupported_files := acc.unsupported_files ++ [path] }
    if isBinarySniff (fs path) then acc
    else
      match fs path with
      | .failure => acc
      | .text content =>
        { acc with st := directAppend acc.st path content (unknownFileMeta path) }

/-- The history entry the router itself appends
(`document/nodes.py:461-464`). -/
def routerLogEntry (acc : RouterAcc) (tookStr : String) : String :=
  "FileTypeRouterNode: Routed " ++ toString acc.docling_files.length ++
  " files to Docling, " ++ toString acc.text_files.length ++
  " text files direct to Chroma, attempted " ++ toString acc.unsupported_files.length ++
  " unsupported files, skipped " ++ toString acc.skipped_files.length ++
  " files (took " ++ tookStr ++ "s)"

/-- `FileTypeRouterNode.run` body (`document/nodes.py:349-472`): without a
truthy `file_paths` attribute, return `ChromaDBIngestionNode()` at once
with no mutation; otherwise classify every item, keep only the Docling
files in `file_paths`, append the routing summary to the history, and
return the Docling node exactly when Docling files remain. -/
def fileTypeRouterRunBody (fs : FS) (tookStr : String) (st : DocumentState) :
    DocumentState × StepResult DocNode PyDict :=
  match st.file_paths with
  | none => (st, .nextNode .ingestion)
  | some [] => (st, .nextNode .ingestion)
  | some fps =>
    let acc := fps.foldl (routerProcessItem fs) { st := st }
    let st2 := { acc.st with
      file_paths := some acc.docling_files
      node_execution_history :=
        acc.st.node_execution_history ++ [routerLogEntry acc tookStr] }
    if acc.docling_files.isEmpty then (st2, .nextNode .ingestion)
    else (st2, .nextNode .docling)

/-- The result of `processor.process_file`: the external Docling document,
modelled by the attributes this code reads. Attributes the library may or
may not supply (`document_type`, `document_name`, `language`, `page_count`)
are `Option`; the structural `parts` and nested `metadata` enrichments of
`document/nodes.py:117-147` are guarded by `hasattr` in the source and
modelled as absent on this minimal collaborator document. -/
structure DoclingDocument where
  exportText : String
  document_type : Option String := none
  document_name : Option String := none
  language : Option String := none
  page_count : Option Nat := none
deriving Repr, DecidableEq

/-- The Docling processor collaborator: availability flag plus the
per-file conversion, which may raise. -/
structure DoclingProcessor where
  docling_available : Bool
  process_file : String → Except String DoclingDocument

/-- The metadata dict `DoclingProcessorNode.run` builds for file `i`
(`document/nodes.py:100-153`): source/type/processed_with, the optional
document attributes, then `dict.update` with the pre-existing state
metadata at index `i` when that list is truthy and long enough. -/
def doclingItemMetadata (st : DocumentState) (i : Nat) (path : String)
    (doc : DoclingDocument) : PyDict :=
  let base : PyDict :=
    [("source", path), ("document_type", doc.document_type.getD "unknown"),
     ("processed_with", "docling")]
  let base := match doc.document_name with
    | some n => base ++ [("document_name", n)]
    | none => base
  let base := match doc.language with
    | some l => base ++ [("language", l)]
    | none => base
  let base := match doc.page_count with
    | some c => base ++ [("page_count", toString c)]
    | none => base
  match st.metadata with
  | some ms => if ms ≠ [] ∧ i < ms.length then dictUpdate base (ms.getD i []) else base
  | none => base

/-- The id `DoclingProcessorNode.run` assigns to file `i`
(`document/nodes.py:155-162`): the pre-existing id at index `i` when the
state id list is truthy and long enough, else `doc_<stem>_<i>`. -/
def doclingItemId (st : DocumentState) (i : Nat) (path : String) : String :=
  match st.document_ids with
  | some ids =>
    if ids ≠ [] ∧ i < ids.length then ids.getD i ""
    else "doc_" ++ pathStem path ++ "_" ++ toString i
  | none => "doc_" ++ pathStem path ++ "_" ++ toString i

/-- The per-file loop of `DoclingProcessorNode.run`
(`document/nodes.py:85-167`) over the enumerated file paths: a
`process_file` failure skips the file, a success appends the exported
text, the metadata dict and the id to the three processed lists. -/
def doclingProcessFiles (proc : DoclingProcessor) (st : DocumentState)
    (fps : List String) : List String × List PyDict × List String :=
  fps.enum.foldl
    (fun acc ip =>
      match proc.process_file ip.2 with
      | .error _ => acc
      | .ok doc =>
        (acc.1 ++ [doc.exportText],
         acc.2.1 ++ [doclingItemMetadata st ip.1 ip.2 doc],
         acc.2.2 ++ [doclingItemId st ip.1 ip.2]))
    ([], [], [])

/-- `DoclingProcessorNode.run` body (`document/nodes.py:56-207`): without
a truthy `file_paths` attribute, or with Docling unavailable, continue to
the ingestion node with the state untouched; otherwise process every file
and *assign* the processed lists to `documents`, `metadata` and
`document_ids` (replacing whatever those fields held), append the
processing summary to the history, and continue to the ingestion node.
Per-file errors are caught inside the loop, so the outer handler of
`document/nodes.py:188-207` is unreachable here. -/
def doclingProcessorRunBody (proc : DoclingProcessor) (tookStr : String)
    (st : DocumentState) : DocumentState × StepResult DocNode PyDict :=
  match st.file_paths with
  | none => (st, .nextNode .ingestion)
  | some [] => (st, .nextNode .ingestion)
  | some fps =>
    if proc.docling_available then
      let (pd, pm, pids) := doclingProcessFiles proc st fps
      let st2 := { st with
        documents := pd
        metadata := some pm
        document_ids := some pids
        node_execution_history := st.node_execution_history ++
          ["DoclingProcessorNode: Processed " ++ toString pd.length ++
           " documents (took " ++ tookStr ++ "s)"] }
      (st2, .nextNode .ingestion)
    else (st, .nextNode .ingestion)

/-- The document-store collaborator call
(`ctx.deps.chroma_client.add_documents`): collection name, documents, ids
and metadata in; a result dict or a raised error out. -/
def AddDocsFn : Type :=
  String → List String → Option (List String) → Option (List PyDict) →
  Except String PyDict

/-- `ChromaDBIngestionNode.run` body (`document/nodes.py:246-292`): with no
documents, store and return the error dict as the terminal payload; on a
successful store, record the results, append the node's own history entry,
set `total_time` to the measured ingestion duration `d` and return
`End(result)`; a store failure is caught, the error dict is recorded and
returned as the terminal payload. -/
def chromaIngestionRunBody (addDocs : AddDocsFn) (d : Rat) (st : DocumentState) :
    DocumentState × StepResult DocNode PyDict :=
  if st.documents = [] then
    let result : PyDict := [("error", "No documents provided for ingestion")]
    ({ st with ingestion_results := some result }, .endMarker result)
  else
    match addDocs st.chroma_collection_name st.documents st.document_ids st.metadata with
    | .ok r =>
      let st2 := { st with
        ingestion_results := some r
        node_execution_history := st.node_execution_history ++
          ["ChromaDBIngestionNode: Ingested " ++ toString st.documents.length ++
           " documents into " ++ st.chroma_collection_name]
        total_time := d }
      (st2, .endMarker r)
    | .error e =>
      let result : PyDict := [("error", "Error during document ingestion: " ++ e)]
      ({ st with ingestion_results := some result }, .endMarker result)

/-- `FileTypeRouterNode._get_output_text` with its `_log_prefix`
(`document/nodes.py:309,324-336`), evaluated on the post-run state. -/
def routerOutputText (st : DocumentState) : String :=
  "File Type Router: " ++
  match st.file_paths with
  | some fps => if fps ≠ [] then
      "Routed " ++ toString fps.length ++ " files based on their types"
    else "No files to route"
  | none => "No files to route"

/-- `DoclingProcessorNode._get_output_text` with its `_log_prefix`
(`document/nodes.py:39-53`), evaluated on the post-run state. -/
def doclingOutputText (st : DocumentState) : String :=
  "Docling Processing: " ++
  match st.file_paths with
  | some fps => if fps ≠ [] then
      "Processed " ++ toString fps.length ++ " documents with Docling"
    else "No documents processed with Docling"
  | none => "No documents processed with Docling"

/-- `ChromaDBIngestionNode._get_output_text` with its `_log_prefix`
(`document/nodes.py:219-233`), evaluated on the post-run state. -/
def chromaOutputText (st : DocumentState) : String :=
  "Document Ingestion: " ++
  match st.ingestion_results with
  | some r => if r ≠ [] then
      "Ingested " ++ toString st.documents.length ++ " documents into " ++
      st.chroma_collection_name
    else "No documents ingested"
  | none => "No documents ingested"

/-- A document-pipeline node body composed with the
`_measure_execution_time` wrapper: run the body, then let the wrapper
normalize the result and append its history entry to the post-run
history. -/
def runMeasured (nodeName : String) (outputTextOf : DocumentState → String)
    (tookStr : String)
    (body : DocumentState → DocumentState × StepResult DocNode PyDict)
    (st : DocumentState) :
    Except String (StepResult DocNode PyDict) × DocumentState :=
  let (st2, r) := body st
  let (res, hist) := measure_execution_time nodeName (outputTextOf st2) tookStr
      (.ok r) st2.node_execution_history
  (res, { st2 with node_execution_history := hist })

/-- The decorated `FileTypeRouterNode.run` as the engine invokes it. -/
def fileTypeRouterRun (fs : FS) (tookStr : String) (st : DocumentState) :
    Except String (StepResult DocNode PyDict) × DocumentState :=
  runMeasured "FileTypeRouterNode" routerOutputText tookStr
    (fileTypeRouterRunBody fs tookStr) st

/-- The decorated `ChromaDBIngestionNode.run` as the engine invokes it. -/
def chromaIngestionRun (addDocs : AddDocsFn) (d : Rat) (tookStr : String)
    (st : DocumentState) :
    Except String (StepResult DocNode PyDict) × DocumentState :=
  runMeasured "ChromaDBIngestionNode" chromaOutputText tookStr
    (chromaIngestionRunBody addDocs d) st

/-- The Python-level outcome of calling a dataclass constructor with
keyword arguments: `TypeError` on the first keyword that is not a declared
field. -/
inductive PyCallResult (α : Type) where
  | ok (a : α)
  | typeError (msg : String)
deriving Repr, DecidableEq

/-- The first action of `ingest_files_with_docling`
(`document/graph.py:132-138`): construct
`DocumentState(file_paths=…, document_ids=…, metadata=…,
chroma_collection_name=…)`. A keyword that is not a declared dataclass
field raises `TypeError` before any dependency is built or any node runs;
otherwise the constructed state starts the graph. -/
def ingest_files_with_docling_start (file_paths : List String)
    (document_ids : Option (List String)) (metadata : Option (List PyDict))
    (collection_name : String) : PyCallResult DocumentState :=
  let kwargs := ["file_paths", "document_ids", "metadata", "chroma_collection_name"]
  match kwargs.find? (fun k => !(documentStateFieldNames.contains k)) with
  | some k => .typeError ("init got an unexpected keyword argument " ++ k)
  | none =>
    .ok { documents := []
          document_ids := document_ids
          metadata := metadata
          chroma_collection_name := collection_name
          file_paths := some file_paths }

/- ## Concrete fixtures used by the claim theorems -/

/-- A small file system: `b.txt` and `only.txt` hold plain text, every
other path (including `a.pdf`, which the router never opens) fails to read
as text. -/
def fsDemo : FS := fun p =>
  if p = "b.txt" then .text "B content"
  else if p = "only.txt" then .text "Only content"
  else .failure

/-- Router input state for spec scenario 3: the batch
`["a.pdf", "b.txt", "c.exe"]`. -/
def st3 : DocumentState := { file_paths := some ["a.pdf", "b.txt", "c.exe"] }

/-- Router input state for spec scenario 4: the batch `["only.txt"]`. -/
def stOnly : DocumentState := { file_paths := some ["only.txt"] }

/-- A state holding one document, as the ingestion node receives it. -/
def stDocs : DocumentState := { documents := ["d1"] }

/-- A store collaborator whose `add_documents` raises `"boom"`. -/
def addFailBoom : AddDocsFn := fun _ _ _ _ => .error "boom"

/-- A store collaborator whose `add_documents` succeeds with a fixed
result dict. -/
def addOkDemo : AddDocsFn := fun _ _ _ _ => .ok [("success", "True"), ("count", "1")]

/-- An available Docling processor that converts `a.pdf` and fails on
everything else. -/
def procA : DoclingProcessor :=
  { docling_available := true
    process_file := fun p =>
      if p = "a.pdf" then .ok { exportText := "A text" } else .error "nope" }

/-- The state scenario-3 routing leaves behind: `b.txt` read directly into
the flat lists, `c.exe` dropped, `a.pdf` kept for Docling. -/
def stAfterRouter : DocumentState := (fileTypeRouterRunBody fsDemo "0.001" st3).1

/- ## Claim theorems -/

/-- C1: the claim says the instrumentation wrapper passes a step's
successor-node result through to the engine without raising, and treats
only a `None`-like return as a failure. The code raises its normalized
`NodeError` for every non-`End` result: here the router's step on the
batch `["only.txt"]` returns `ChromaDBIngestionNode()` — its documented
successor — yet the decorated step raises
`"Node FileTypeRouterNode did not return an End object"`. The `None`
half of the claim does hold (third conjunct). -/
theorem wrapper_raises_on_successor_node :
    (fileTypeRouterRunBody fsDemo "0.001" stOnly).2 = .nextNode .ingestion
    ∧ (fileTypeRouterRun fsDemo "0.001" stOnly).1 =
        .error "Node FileTypeRouterNode did not return an End object"
    ∧ (measure_execution_time "FileTypeRouterNode" "x" "0.001"
        (.ok (StepResult.noneResult : StepResult DocNode PyDict)) []).1 =
        .error "Node FileTypeRouterNode did not return an End object" := by
  decide

/-- C2 counterexample: for router input `["a.pdf", "b.txt", "c.exe"]` the
single direct entry created for `b.txt` has id `"doc_b_0"`
(`doc_<stem>_<count>`), which is not the claimed `doc_0_b_type_txt`. -/
theorem router_id_format_counterexample :
    (fileTypeRouterRunBody fsDemo "0.001" st3).1.document_ids = some ["doc_b_0"]
    ∧ ("doc_b_0" : String) ≠ "doc_0_b_type_txt" := by
  decide

/-- C2 amended: for every plain-text item the router processes directly,
the identifier appended by the direct transformation is
`doc_<stem>_<index>` where `<index>` is the running count of identifiers
already present in `document_ids` at assignment time; for router input
`["a.pdf", "b.txt", "c.exe"]` the single direct entry for `b.txt` gets id
`"doc_b_0"`. -/
theorem router_id_running_count (fs : FS) (acc : RouterAcc) (path content : String)
    (hext : strToLower (pathExt path) = ".txt") (hread : fs path = .text content) :
    (routerProcessItem fs acc path).st.document_ids =
      some ((acc.st.document_ids.getD []) ++
        ["doc_" ++ pathStem path ++ "_" ++ toString (acc.st.document_ids.getD []).length])
    ∧ (fileTypeRouterRunBody fsDemo "0.001" st3).1.document_ids = some ["doc_b_0"] := by
  refine ⟨?_, by decide⟩
  simp [routerProcessItem, hext, hread, directAppend, SKIP_EXTENSIONS,
    DOCLING_SUPPORTED_EXTENSIONS, TEXT_FILE_EXTENSIONS]

/-- Witness for C2 amended at `b.txt` with content `"B content"` on the
demo file system starting from an empty state. -/
theorem router_id_running_count_witness :
    (routerProcessItem fsDemo { st := {} } "b.txt").st.document_ids =
      some ["doc_b_0"] := by
  have h := router_id_running_count fsDemo { st := {} } "b.txt" "B content"
    (by decide) (by decide)
  exact h.1.trans (by decide)

/-- C3 counterexample: with a store collaborator whose `add_documents`
raises `"boom"`, the decorated ingestion step does not propagate the
error: it returns a terminal `End` carrying the error dict, and records
that dict in `ingestion_results`. -/
theorem ingestion_store_error_terminal_counterexample :
    (chromaIngestionRun addFailBoom 0 "0.002" stDocs).1 =
      .ok (.endMarker [("error", "Error during document ingestion: boom")])
    ∧ (chromaIngestionRun addFailBoom 0 "0.002" stDocs).2.ingestion_results =
      some [("error", "Error during document ingestion: boom")] := by
  decide

/-- C3 amended: when the store collaborator's `add_documents` raises
during ingestion of a non-empty document list, the ingestion node catches
the error, records `{"error": "Error during document ingestion: <e>"}` in
`ingestion_results`, and returns a terminal marker carrying that dict —
the error does not reach the engine. -/
theorem ingestion_store_error_swallowed (st : DocumentState) (e : String)
    (d : Rat) (took : String) (hdocs : st.documents ≠ []) :
    (chromaIngestionRun (fun _ _ _ _ => .error e) d took st).1 =
      .ok (.endMarker [("error", "Error during document ingestion: " ++ e)])
    ∧ (chromaIngestionRun (fun _ _ _ _ => .error e) d took st).2.ingestion_results =
      some [("error", "Error during document ingestion: " ++ e)] := by
  simp [chromaIngestionRun, runMeasured, chromaIngestionRunBody,
    measure_execution_time, hdocs]

/-- Witness for C3 amended at the one-document state and the `"boom"`
store failure. -/
theorem ingestion_store_error_swallowed_witness :
    (chromaIngestionRun (fun _ _ _ _ => .error "boom") 0 "0.002" stDocs).1 =
      .ok (.endMarker [("error", "Error during document ingestion: boom")]) :=
  (ingestion_store_error_swallowed stDocs "boom" 0 "0.002" (by decide)).1

/-- C5 counterexample: the run of the ingestion-only graph on one document
with a successful store takes exactly one node step (the terminal step,
returning `End`), yet the state's execution history ends with two entries
— the node's own entry and the wrapper's — not one entry per step. -/
theorem history_length_counterexample :
    (chromaIngestionRun addOkDemo 1 "0.002" stDocs).1 =
      .ok (.endMarker [("success", "True"), ("count", "1")])
    ∧ (chromaIngestionRun addOkDemo 1 "0.002" stDocs).2.node_execution_history =
      ["ChromaDBIngestionNode: Ingested 1 documents into default_collection",
       "ChromaDBIngestionNode: Document Ingestion: Ingested 1 documents into default_collection (took 0.002s)"]
    ∧ (chromaIngestionRun addOkDemo 1 "0.002" stDocs).2.node_execution_history.length ≠ 1 := by
  decide

/-- C5 amended: history is append-only — the wrapper appends exactly one
entry per node execution (success or failure), and document-pipeline
nodes additionally append one entry of their own on their success paths,
so after a normally-terminating run the history length equals the number
of steps plus the number of such internal appends (two entries for the
one-step ingestion run), never fewer and never reordered. -/
theorem history_append_only {ν ω : Type} (nodeName outputText took : String)
    (inner : Except String (StepResult ν ω)) (hist : List String) :
    (∃ entry, (measure_execution_time nodeName outputText took inner hist).2 =
      hist ++ [entry])
    ∧ (∀ st : DocumentState,
        ((chromaIngestionRun addOkDemo 1 "0.002" st).2.node_execution_history).take
          st.node_execution_history.length = st.node_execution_history)
    ∧ (chromaIngestionRun addOkDemo 1 "0.002" stDocs).2.node_execution_history.length = 2 := by
  refine ⟨?_, ?_, by decide⟩
  · match inner with
    | .error e => exact ⟨_, rfl⟩
    | .ok (.endMarker p) => exact ⟨_, rfl⟩
    | .ok (.nextNode n) => exact ⟨_, rfl⟩
    | .ok .noneResult => exact ⟨_, rfl⟩
  · intro st
    by_cases hd : st.documents = []
    · simp [chromaIngestionRun, runMeasured, chromaIngestionRunBody,
        measure_execution_time, hd, addOkDemo, List.take_left]
    · simp [chromaIngestionRun, runMeasured, chromaIngestionRunBody,
        measure_execution_time, hd, addOkDemo, List.append_assoc, List.take_left]

/-- C4 counterexample: the entry the router appended for the
directly-processed `b.txt` (`"B content"`) is no longer present after the
heavy-processing node runs on the remaining `a.pdf`:
`DoclingProcessorNode.run` assigns its processed lists over `documents`,
a replacement, not an append. -/
theorem docling_replacement_counterexample :
    "B content" ∈ stAfterRouter.documents
    ∧ (doclingProcessorRunBody procA "0.003" stAfterRouter).1.documents = ["A text"]
    ∧ "B content" ∉ (doclingProcessorRunBody procA "0.003" stAfterRouter).1.documents := by
  decide

/-- C4 amended: the router and the ingestion node only append (the
router's per-item step extends `documents` and `document_ids` by a — 
possibly empty — suffix; the ingestion node never changes `documents`),
but the heavy-processing node's success path replaces `documents`
wholesale with its own processed list, discarding router-appended direct
entries. -/
theorem mutations_append_except_docling (fs : FS) (acc : RouterAcc) (path : String)
    (addDocs : AddDocsFn) (d : Rat) (st : DocumentState) :
    (∃ tl, (routerProcessItem fs acc path).st.documents = acc.st.documents ++ tl)
    ∧ (∃ tl, (routerProcessItem fs acc path).st.document_ids.getD [] =
        acc.st.document_ids.getD [] ++ tl)
    ∧ (chromaIngestionRunBody addDocs d st).1.documents = st.documents
    ∧ (doclingProcessorRunBody procA "0.003" stAfterRouter).1.documents = ["A text"] := by
  refine ⟨?_, ?_, ?_, by decide⟩
  · unfold routerProcessItem directAppend
    dsimp only
    repeat' split
    all_goals first
      | exact ⟨[], (List.append_nil _).symm⟩
      | exact ⟨_, rfl⟩
  · unfold routerProcessItem directAppend
    dsimp only
    repeat' split
    all_goals first
      | exact ⟨[], (List.append_nil _).symm⟩
      | exact ⟨_, rfl⟩
  · unfold chromaIngestionRunBody
    dsimp only
    split
    · rfl
    · split <;> rfl

/-- C6: the hello_world graph from `HelloNode` with an empty initial state
and the default `MockLLMClient` terminates with output `"Hello World!"`,
`combined_text = "Hello World!"`, and a trace of the four node entries
(Hello, World, Combine, Print) plus the terminal entry — five entries. -/
theorem hello_world_default_run :
    helloWorldRun {} =
      some ("Hello World!",
        { hello_text := "Hello", world_text := "World",
          combined_text := "Hello World!" },
        [TraceEntry.nodeStep "HelloNode", TraceEntry.nodeStep "WorldNode",
         TraceEntry.nodeStep "CombineNode", TraceEntry.nodeStep "PrintNode",
         TraceEntry.endStep]) := by
  decide

/-- C7: when the Gemini collaborator's underlying call raises, the node's
output field is the swallowed error text starting with
`"Error generating response:"`, the node still produces its normal
terminal successor (the `End` carrying that text), and the run terminates
normally — `Except.ok`, no exception escaping. -/
theorem gemini_collaborator_error_swallowed (p e : String) (genT : Rat)
    (took : String) (hp : p ≠ "") :
    (geminiGraphRun (Except.error e) genT took { user_prompt := p }).map (fun r => r.1) =
      Except.ok ("Error generating response: " ++ e)
    ∧ (geminiGraphRun (Except.error e) genT took { user_prompt := p }).map
        (fun r => r.2.1.ai_response) = Except.ok ("Error generating response: " ++ e)
    ∧ (geminiGraphRun (Except.error e) genT took { user_prompt := p }).map
        (fun r => r.2.2) =
      Except.ok [TraceEntry.nodeStep "GeminiAgentNode", TraceEntry.endStep]
    ∧ (geminiAgentRunBody (Except.error e) genT { user_prompt := p }).2 =
        .endMarker ("Error generating response: " ++ e)
    ∧ ∃ rest, ("Error generating response: " ++ e) =
        "Error generating response:" ++ rest := by
  refine ⟨?_, ?_, ?_, ?_, ⟨" " ++ e, ?_⟩⟩
  · simp [geminiGraphRun, geminiAgentRunBody, gemini_generate_text, geminiOutputText,
      measure_execution_time, Except.map, hp]
  · simp [geminiGraphRun, geminiAgentRunBody, gemini_generate_text, geminiOutputText,
      measure_execution_time, Except.map, hp]
  · simp [geminiGraphRun, geminiAgentRunBody, gemini_generate_text, geminiOutputText,
      measure_execution_time, Except.map, hp]
  · simp [geminiAgentRunBody, gemini_generate_text, hp]
  · have hsp : ("Error generating response:" ++ " " : String) =
        "Error generating response: " := by decide
    rw [← String.append_assoc, hsp]

/-- Witness for C7 at prompt `"hi"` and collaborator error `"quota"`. -/
theorem gemini_collaborator_error_swallowed_witness :
    (geminiGraphRun (Except.error "quota") 1 "0.004" { user_prompt := "hi" }).map
        (fun r => r.1) = Except.ok ("Error generating response: " ++ "quota")
    ∧ (geminiGraphRun (Except.error "quota") 1 "0.004" { user_prompt := "hi" }).map
        (fun r => r.2.1.ai_response) = Except.ok ("Error generating response: " ++ "quota")
    ∧ (geminiGraphRun (Except.error "quota") 1 "0.004" { user_prompt := "hi" }).map
        (fun r => r.2.2) =
      Except.ok [TraceEntry.nodeStep "GeminiAgentNode", TraceEntry.endStep]
    ∧ (geminiAgentRunBody (Except.error "quota") 1 { user_prompt := "hi" }).2 =
        .endMarker ("Error generating response: " ++ "quota")
    ∧ ∃ rest, ("Error generating response: " ++ "quota") =
        "Error generating response:" ++ rest :=
  gemini_collaborator_error_swallowed "hi" "quota" 1 "0.004" (by decide)

/-- C8: for router input `["only.txt"]` no Docling files remain and the
router's step returns the ingestion node directly; and every run of the
decorated ingestion node on a nonempty document list against a store whose
`add_documents` succeeds with result `r` terminates with an `End` whose
payload is exactly `r`, with `total_time` equal to the measured ingestion
duration. -/
theorem only_txt_direct_ingestion_terminal (r : PyDict) (d : Rat) (took : String)
    (st : DocumentState) (hdocs : st.documents ≠ []) :
    ((fileTypeRouterRunBody fsDemo "0.001" stOnly).1.file_paths = some []
      ∧ (fileTypeRouterRunBody fsDemo "0.001" stOnly).2 =
          StepResult.nextNode DocNode.ingestion)
    ∧ (chromaIngestionRun (fun _ _ _ _ => .ok r) d took st).1 =
        .ok (.endMarker r)
    ∧ (chromaIngestionRun (fun _ _ _ _ => .ok r) d took st).2.total_time = d := by
  refine ⟨⟨by decide, by decide⟩, ?_, ?_⟩
  · simp [chromaIngestionRun, runMeasured, chromaIngestionRunBody,
      measure_execution_time, hdocs]
  · simp [chromaIngestionRun, runMeasured, chromaIngestionRunBody,
      measure_execution_time, hdocs]

/-- Witness for C8 at the one-document state and a fixed result dict. -/
theorem only_txt_direct_ingestion_terminal_witness :
    ((fileTypeRouterRunBody fsDemo "0.001" stOnly).1.file_paths = some []
      ∧ (fileTypeRouterRunBody fsDemo "0.001" stOnly).2 =
          StepResult.nextNode DocNode.ingestion)
    ∧ (chromaIngestionRun (fun _ _ _ _ => .ok [("success", "True")]) 2 "0.002" stDocs).1 =
        .ok (.endMarker [("success", "True")])
    ∧ (chromaIngestionRun (fun _ _ _ _ => .ok [("success", "True")]) 2 "0.002" stDocs).2.total_time = 2 :=
  only_txt_direct_ingestion_terminal [("success", "True")] 2 "0.002" stDocs (by decide)

/-- C9: a node never overwrites its pre-set field — the Hello step leaves
a nonempty `hello_text` unchanged, the World step leaves a nonempty
`world_text` unchanged — and a run from the Hello step with `hello_text`
pre-set to any nonempty value still fills `world_text` with `"World"` and
combines the pre-set value with the generated word. -/
theorem preset_hello_not_overwritten (st st2 : MyState) (h : String)
    (hst : st.hello_text ≠ "") (hst2 : st2.world_text ≠ "") (hh : h ≠ "") :
    hwStep st .hello = (st, .nextNode .world)
    ∧ hwStep st2 .world = (st2, .nextNode .combine)
    ∧ helloWorldRun { hello_text := h } =
        some (h ++ " " ++ "World" ++ "!",
          { hello_text := h, world_text := "World",
            combined_text := h ++ " " ++ "World" ++ "!" },
          [TraceEntry.nodeStep "HelloNode", TraceEntry.nodeStep "WorldNode",
           TraceEntry.nodeStep "CombineNode", TraceEntry.nodeStep "PrintNode",
           TraceEntry.endStep]) := by
  have hw : mockGenerateText worldPrompt = "World" := by decide
  refine ⟨?_, ?_, ?_⟩
  · simp [hwStep, hst]
  · simp [hwStep, hst2]
  · simp [helloWorldRun, runEngine, hwStep, hwNodeName, hh, hw]

/-- Witness for C9 with `hello_text` pre-set to `"Custom Hello"`: the run
yields `"Custom Hello World!"`. -/
theorem preset_hello_not_overwritten_witness :
    helloWorldRun { hello_text := "Custom Hello" } =
      some ("Custom Hello World!",
        { hello_text := "Custom Hello", world_text := "World",
          combined_text := "Custom Hello World!" },
        [TraceEntry.nodeStep "HelloNode", TraceEntry.nodeStep "WorldNode",
         TraceEntry.nodeStep "CombineNode", TraceEntry.nodeStep "PrintNode",
         TraceEntry.endStep]) := by
  have h := (preset_hello_not_overwritten { hello_text := "x" } { world_text := "y" }
    "Custom Hello" (by decide) (by decide) (by decide)).2.2
  exact h.trans (by decide)

/-- C10: `DocumentState` declares no `file_paths` field, so for every
non-empty path list, `ingest_files_with_docling` raises `TypeError` while
constructing `DocumentState(file_paths=...)`, before any node runs; and
the router's step on any state built by the declared constructor (where
the `file_paths` attribute is absent) immediately returns the ingestion
node with the state — in particular `documents`, `metadata` and
`document_ids` — untouched. -/
theorem document_state_no_file_paths_field
    (fps : List String) (dids : Option (List String)) (md : Option (List PyDict))
    (cn : String) (fs : FS) (took : String) (st : DocumentState)
    (hfps : fps ≠ []) (hst : st.file_paths = none) :
    ("file_paths" ∉ documentStateFieldNames)
    ∧ ingest_files_with_docling_start fps dids md cn =
        .typeError "init got an unexpected keyword argument file_paths"
    ∧ fileTypeRouterRunBody fs took st = (st, .nextNode .ingestion) := by
  refine ⟨by decide, rfl, ?_⟩
  simp [fileTypeRouterRunBody, hst]

/-- Witness for C10 with the path list `["x.pdf"]` and the
default-constructed state. -/
theorem document_state_no_file_paths_field_witness :
    ("file_paths" ∉ documentStateFieldNames)
    ∧ ingest_files_with_docling_start ["x.pdf"] none none "default_collection" =
        .typeError "init got an unexpected keyword argument file_paths"
    ∧ fileTypeRouterRunBody fsDemo "0.001" {} = ({}, .nextNode .ingestion) :=
  document_state_no_file_paths_field ["x.pdf"] none none "default_collection"
    fsDemo "0.001" {} (by decide) rfl
